import Mathlib

/-!
Verification of the procedural-scenery generative core: noise and height
functions, biome classification, vegetation scattering, the recursive tree
generators, and the flight/collision bodies of the terrain demos.

Real-number semantics stands in for JavaScript float arithmetic; the
JS `Math` primitives are modelled by Mathlib's `Real.sin`, `Real.cos`
and `Real.sqrt`.  Calls to the global `Math.random()` are modelled by
explicit pseudo-random draw arguments: a single draw as a real parameter,
a sequential stream as a function `g : Nat -> Real` together with a cursor
index that each consumed draw advances, exactly mirroring the order in
which the source consumes the global generator.
-/

namespace Scenery

noncomputable section

open Real

/-- 3D vector, as THREE.Vector3. -/
structure Vec3 where
  x : ℝ
  y : ℝ
  z : ℝ
deriving DecidableEq

/-- Vector addition (`Vector3.add`). -/
def vadd (a b : Vec3) : Vec3 := ⟨a.x + b.x, a.y + b.y, a.z + b.z⟩

/-- Scalar multiple (`Vector3.multiplyScalar`). -/
def smul (k : ℝ) (v : Vec3) : Vec3 := ⟨k * v.x, k * v.y, k * v.z⟩

/-- Euclidean length (`Vector3.length`). -/
def lenV (v : Vec3) : ℝ := Real.sqrt (v.x ^ 2 + v.y ^ 2 + v.z ^ 2)

/-- `Vector3.normalize`: divide by `length() || 1` (a zero vector is left
unchanged, via division by 1). -/
def normalize (v : Vec3) : Vec3 :=
  let l := if lenV v = 0 then 1 else lenV v
  ⟨v.x / l, v.y / l, v.z / l⟩

/-- `THREE.MathUtils.lerp`. -/
def lerp (a b t : ℝ) : ℝ := a + (b - a) * t

/-- Rotation about the X axis. -/
def rotX (a : ℝ) (v : Vec3) : Vec3 :=
  ⟨v.x, v.y * Real.cos a - v.z * Real.sin a, v.y * Real.sin a + v.z * Real.cos a⟩

/-- Rotation about the Y axis. -/
def rotY (a : ℝ) (v : Vec3) : Vec3 :=
  ⟨v.x * Real.cos a + v.z * Real.sin a, v.y, -v.x * Real.sin a + v.z * Real.cos a⟩

/-- Rotation about the Z axis. -/
def rotZ (a : ℝ) (v : Vec3) : Vec3 :=
  ⟨v.x * Real.cos a - v.y * Real.sin a, v.x * Real.sin a + v.y * Real.cos a, v.z⟩

/-- `Vector3.applyEuler` with order `'XYZ'` (THREE's default): the matrix is
`Rx * Ry * Rz`, so the Z rotation acts on the vector first. -/
def applyEulerXYZ (v : Vec3) (ex ey ez : ℝ) : Vec3 :=
  rotX ex (rotY ey (rotZ ez v))

/-- `Vector3.applyEuler` with order `'YXZ'`: the matrix is `Ry * Rx * Rz`. -/
def applyEulerYXZ (v : Vec3) (ex ey ez : ℝ) : Vec3 :=
  rotY ey (rotX ex (rotZ ez v))

/-- Biome bands shared by the terrain demos, ordered from most aquatic to
highest. -/
inductive Biome
  | shore
  | grass
  | rock
  | snow
deriving DecidableEq

/-- Elevation rank of a biome band: larger means higher / less aquatic. -/
def Biome.rank : Biome → ℕ
  | .shore => 0
  | .grass => 1
  | .rock => 2
  | .snow => 3

/-- A vegetation instance: placement transform of one instanced tree. -/
structure VegInstance where
  pos : Vec3
  scale : ℝ
  rotY : ℝ

end

end Scenery

namespace Scenery.BirdDemo

noncomputable section

open Real Scenery

/-- `CONFIG.waterLevel` of the bird-flight demo. -/
def waterLevel : ℝ := 5

/-- `fbm` of the bird-flight demo: four hand-rolled sin/cos octaves, base
frequency 0.002, base amplitude 120, amplitude halved and frequency doubled
per octave; the third octave is ridged (absolute value), the fourth sums a
sine and a cosine at twice its frequency. -/
def fbm (x z : ℝ) : ℝ :=
  Real.sin (x * 0.002) * Real.cos (z * 0.002) * 120 * 1 +
  Real.sin (x * 0.004 + 1.2) * Real.cos (z * 0.004 + 1.2) * 120 * 0.5 +
  |Real.sin (x * 0.008) * Real.cos (z * 0.008)| * 120 * 0.25 +
  (Real.sin (x * 0.016 * 2) + Real.cos (z * 0.016 * 2)) * 120 * 0.125

/-- `getTerrainHeight`: fbm elevation, blended toward -20 inside the radius-400
lake basin around the origin. -/
def getTerrainHeight (x z : ℝ) : ℝ :=
  let h := fbm x z
  let dist := Real.sqrt (x * x + z * z)
  if dist < 400 then lerp h (-20) (1.0 - dist / 400) else h

/-- Per-vertex biome coloring rule of the bird-flight demo's terrain loop:
sand below `waterLevel + 2`, snow above 150, rock above 80, grass otherwise. -/
def classify (h : ℝ) : Biome :=
  if h < waterLevel + 2 then .shore
  else if h > 150 then .snow
  else if h > 80 then .rock
  else .grass

/-- One slot of the bird-flight demo's forest placement loop.  Draws `r1 r2`
pick the horizontal position inside 90% of the world, the height band
`waterLevel + 5 < h < 140` accepts or rejects, and an accepted instance sits
at `h + 10` with scale and rotation from draws `r3 r4`.  A rejected slot emits
nothing (it is later zero-scaled). -/
def emitTree (r1 r2 r3 r4 : ℝ) : Option VegInstance :=
  let x := (r1 - 0.5) * 2000 * 0.9
  let z := (r2 - 0.5) * 2000 * 0.9
  let h := getTerrainHeight x z
  if waterLevel + 5 < h ∧ h < 140 then
    some ⟨⟨x, h + 10, z⟩, 0.8 + r3 * 0.5, r4 * π * 2⟩
  else none

/-- The bird's mutable flight state (class `Bird`). -/
structure BirdState where
  position : Vec3
  velocity : Vec3
  speed : ℝ
  roll : ℝ
  pitch : ℝ
  yaw : ℝ

/-- The physics part of `Bird.update` before the collision check (orientation
smoothing, forward vector by yaw-then-pitch Euler with roll zeroed, move by
`speed`, then the dive/cruise speed rule). -/
def birdAux (s : BirdState) (targetX targetY : ℝ) : BirdState :=
  let yaw1 := s.yaw - targetX * 0.04
  let pitch1 := lerp s.pitch (targetY * 0.8) 0.1
  let roll1 := lerp s.roll (-targetX * 1.0) 0.05
  let forward := normalize (applyEulerYXZ ⟨0, 0, -1⟩ pitch1 yaw1 0)
  let vel := smul s.speed forward
  let pos1 := vadd s.position vel
  let speed1 := if pitch1 < -0.2 then s.speed + 0.01 else s.speed + (2.0 - s.speed) * 0.01
  ⟨pos1, vel, speed1, roll1, pitch1, yaw1⟩

/-- The collision check at the end of `Bird.update`: if the moved position is
below `max(ground, waterLevel) + 2`, the height is reset to
`max(ground, waterLevel) + 10` and the pitch forced to 0.5. -/
def birdCollide (b : BirdState) : BirdState :=
  let groundH := getTerrainHeight b.position.x b.position.z
  if b.position.y < max groundH waterLevel + 2 then
    { b with position := ⟨b.position.x, max groundH waterLevel + 10, b.position.z⟩,
             pitch := 0.5 }
  else b

/-- `Bird.update`: the physics step followed by the collision check. -/
def birdUpdate (s : BirdState) (targetX targetY : ℝ) : BirdState :=
  birdCollide (birdAux s targetX targetY)

end

end Scenery.BirdDemo

namespace Scenery.CondorDemo

noncomputable section

open Real Scenery

/-- `noise` of the condor demo: four sin/cos layers at global scale 0.0015
with amplitudes 300, 150, 20 and 5. -/
def noise (x z : ℝ) : ℝ :=
  Real.sin (x * 0.0015) * Real.cos (z * 0.0015) * 300 +
  Real.sin (x * 0.00375 + 1.5) * Real.cos (z * 0.00375 + 0.5) * 150 +
  Real.sin (x * 0.015) * Real.cos (z * 0.015) * 20 +
  Real.sin (x * 0.045) * Real.cos (z * 0.0525) * 5

/-- `getAltitude`: base noise, quadratically eased blend toward the lake bed
`-50 - 10*sin(x/100)` inside the radius-600 lake (fading over a 400-unit
transition band), plus ridged peaks added above elevation 100. -/
def getAltitude (x z : ℝ) : ℝ :=
  let d := Real.sqrt (x * x + z * z)
  let h0 := noise x z
  let valleyFactor : ℝ :=
    if d < 600 then 1.0
    else if d < 600 + 400 then 1.0 - (d - 600) / 400
    else 0
  let h1 :=
    if valleyFactor > 0 then
      lerp h0 (-50 - Real.sin (x * 0.01) * 10) (valleyFactor * valleyFactor)
    else h0
  if h1 > 100 then h1 + |Real.sin (x * 0.05 + z * 0.05)| * 50 else h1

/-- The condor's flight state (`flight` object); `vel` is initialized but
never read by the animation loop. -/
structure CondorState where
  pos : Vec3
  vel : Vec3
  speed : ℝ
  pitch : ℝ
  yaw : ℝ
  roll : ℝ

/-- The flight-physics part of the condor demo's `animate` tick before the
terrain check: speed eased toward `2 + max(input.y,0)*1.5`, pitch/roll eased
toward their targets, yaw incremented, and the position advanced along the
forward vector from the full `(pitch, yaw, roll)` Euler (default XYZ order). -/
def condorAux (s : CondorState) (inX inY : ℝ) : CondorState :=
  let targetSpeed := 2.0 + (if inY > 0 then inY * 1.5 else 0)
  let speed1 := s.speed + (targetSpeed - s.speed) * 0.05
  let pitch1 := s.pitch + (inY * 0.8 - s.pitch) * 0.1
  let roll1 := s.roll + (-inX * 1.0 - s.roll) * 0.05
  let yaw1 := s.yaw + -inX * 0.02
  let forward := normalize (applyEulerXYZ ⟨0, 0, -1⟩ pitch1 yaw1 roll1)
  let pos1 := vadd s.pos (smul speed1 forward)
  ⟨pos1, s.vel, speed1, pitch1, yaw1, roll1⟩

/-- The "magic updraft" terrain check at the end of the condor tick: if the
moved position is below `ground + 10` it is lifted to `ground + 10` and the
pitch raised to at least 0.2.  There is no water-level term. -/
def condorCollide (b : CondorState) : CondorState :=
  let groundH := getAltitude b.pos.x b.pos.z
  if b.pos.y < groundH + 10 then
    { b with pos := ⟨b.pos.x, groundH + 10, b.pos.z⟩, pitch := max b.pitch 0.2 }
  else b

/-- One condor tick: the physics step followed by the terrain check. -/
def condorUpdate (s : CondorState) (inX inY : ℝ) : CondorState :=
  condorCollide (condorAux s inX inY)

/-- The condor demo's water plane sits at `y = 0` ("Sea Level"). -/
def waterLevel : ℝ := 0

end

end Scenery.CondorDemo

namespace Scenery.Bariloche

noncomputable section

open Real Scenery

/-- `noise` of the Bariloche terrain demo: rolling hills, detail and ridge
layers. -/
def noise (x z : ℝ) : ℝ :=
  Real.sin (x * 0.005) * Real.cos (z * 0.005) * 50 +
  Real.sin (x * 0.01 + z * 0.02) * 20 +
  |Real.sin (x * 0.03)| * 10

/-- `mountainNoise`: two ridged sin/cos layers plus a rocky jitter drawn from
the global `Math.random()`; the draw is the explicit argument `r`. -/
def mountainNoise (x z r : ℝ) : ℝ :=
  |Real.sin (x * 0.002) * Real.cos (z * 0.002)| * 400 +
  |Real.sin (x * 0.005 + 1.2) * Real.cos (z * 0.005 + 0.5)| * 150 +
  (r - 0.5) * 20

/-- Per-vertex elevation of the Bariloche heightmap loop: mountains behind
`z < -300` (with a `Math.random()` draw `rMtn`), rolling shore ahead of
`z > 100`, a linear lake slope with roughness draw `rRough` in between, and a
raised peninsula within distance 80 of `(0, 100)`. -/
def finalH (x z rMtn rRough : ℝ) : ℝ :=
  let hMtn := mountainNoise x (z - 500) rMtn
  let base :=
    if z < -300 then hMtn
    else if z > 100 then noise x z * 0.5 + 5
    else lerp 100 (-20) ((z - -300) / (100 - -300)) + (rRough - 0.5) * 5
  let distToCam := Real.sqrt (x * x + (z - 100) * (z - 100))
  if distToCam < 80 then max base (5 + Real.sin (distToCam * 0.1) * 2) else base

/-- Per-vertex biome coloring rule of the Bariloche terrain loop: snow above
220, rock above 100, forest/grass above 5, sandy/rocky shore otherwise (the
random color lerps inside a band change only the tint, not the band). -/
def classify (h : ℝ) : Biome :=
  if h > 220 then .snow
  else if h > 100 then .rock
  else if h > 5 then .grass
  else .shore

/-- One slot of the Bariloche forest placement loop.  Draws `r1 r2` pick the
position in a 1500-unit square; acceptance is the position test
`-500 < z < 0` and `|x| > 100` (the source comments that the heightmap is not
consulted), and an accepted instance's height is the random
`r3 * 50 + 20` with scale from `r4`. -/
def emitTree (r1 r2 r3 r4 : ℝ) : Option VegInstance :=
  let x := (r1 - 0.5) * 1500
  let z := (r2 - 0.5) * 1500
  if z > -500 ∧ z < 0 ∧ 100 < |x| then
    some ⟨⟨x, r3 * 50 + 20, z⟩, r4 * 0.5 + 0.5, 0⟩
  else none

end

end Scenery.Bariloche

namespace Scenery

noncomputable section

open Real

/-- Output items of the recursive tree generators: a straight tapering
cylinder segment (`seg`), a curved tube segment through a perturbed midpoint
(`tube`), a plain leaf plane, or a leaf plane carrying the
`(frequency, phase)` animation data of the organic generator. -/
inductive TreeItem
  | seg (start dir : Vec3) (len rad : ℝ)
  | tube (a b c : Vec3) (rad : ℝ)
  | leaf (pos rot : Vec3)
  | leafAnim (pos rot : Vec3) (freq phase : ℝ)

/-- Whether an item is a branch segment (straight or tubular), as opposed to
leaf output. -/
def TreeItem.isBranch : TreeItem → Bool
  | .seg _ _ _ _ => true
  | .tube _ _ _ _ => true
  | _ => false

/-- Number of branch segments in a generator's output. -/
def countSegs (l : List TreeItem) : ℕ := l.countP (fun t => t.isBranch)

end

end Scenery

namespace Scenery.TreeDemo

noncomputable section

open Real Scenery

/-- `createLeaves` of the Patagonia tree demo: `n` leaf planes around `pos`,
each consuming six draws — three ±0.75 positional offsets and three random
rotations in `[0, π)`. -/
def createLeaves (g : ℕ → ℝ) (pos : Vec3) : ℕ → ℕ → List TreeItem × ℕ
  | 0, i => ([], i)
  | n + 1, i =>
    let leaf := TreeItem.leaf
      ⟨pos.x + (g i - 0.5) * 1.5, pos.y + (g (i + 1) - 0.5) * 1.5,
        pos.z + (g (i + 2) - 0.5) * 1.5⟩
      ⟨g (i + 3) * π, g (i + 4) * π, g (i + 5) * π⟩
    let rest := createLeaves g pos n (i + 6)
    (leaf :: rest.1, rest.2)

/-- Child direction of `createBranch`: the parent direction rotated by random
X/Z angles bounded by `branchSplitAngle = 0.4`, normalized, pushed by the
wind bias `+0.1` on x, and normalized again. -/
def childDir (dir : Vec3) (ax az : ℝ) : Vec3 :=
  let nd := normalize (applyEulerXYZ dir ax 0 az)
  normalize ⟨nd.x + 0.1, nd.y, nd.z⟩

/-- `createBranch` of the Patagonia tree demo (`CONFIG.tree`: shrink 0.7,
split angle 0.4, leaf density 6): at depth 0 it emits a leaf cluster and no
segment; otherwise it emits one tapering segment from `start` along `dir` and
recurses into exactly 2 children at depth - 1, threading the random stream
through both. -/
def createBranch (g : ℕ → ℝ) : ℕ → Vec3 → Vec3 → ℝ → ℝ → ℕ → List TreeItem × ℕ
  | 0, start, _, _, _, i => createLeaves g start 6 i
  | d + 1, start, dir, len, rad, i =>
    let endP := vadd start (smul len dir)
    let d1 := childDir dir ((g i - 0.5) * (0.4 * 2)) ((g (i + 1) - 0.5) * (0.4 * 2))
    let r1 := createBranch g d endP d1 (len * 0.7) (rad * 0.7) (i + 2)
    let d2 := childDir dir ((g r1.2 - 0.5) * (0.4 * 2)) ((g (r1.2 + 1) - 0.5) * (0.4 * 2))
    let r2 := createBranch g d endP d2 (len * 0.7) (rad * 0.7) (r1.2 + 2)
    (TreeItem.seg start dir len rad :: (r1.1 ++ r2.1), r2.2)

end

end Scenery.TreeDemo

namespace Scenery.OrganicTree

noncomputable section

open Real Scenery

/-- Leaf emission of `createOrganicBranch`: `n` leaf planes, each consuming
eight draws — three offsets, three rotations, and the `(freq, phase)`
animation pair stored in `userData`. -/
def mkLeaves (g : ℕ → ℝ) (pos : Vec3) : ℕ → ℕ → List TreeItem × ℕ
  | 0, i => ([], i)
  | n + 1, i =>
    let p : Vec3 := ⟨pos.x + (g i - 0.5) * 1.5, pos.y + (g (i + 1) - 0.5) * 1.5,
      pos.z + (g (i + 2) - 0.5) * 1.5⟩
    let leaf := TreeItem.leafAnim p
      ⟨g (i + 3) * π, g (i + 4) * π, g (i + 5) * π⟩
      (g (i + 6) + 0.5) (g (i + 7) * π * 2)
    let rest := mkLeaves g pos n (i + 8)
    (leaf :: rest.1, rest.2)

/-- Child direction of `createOrganicBranch`: the curve's end tangent rotated
by random X/Z angles bounded by `branchSplitAngle = 0.5`, normalized, biased
upward by `+0.3` on y, and normalized again. -/
def childDir (tangent : Vec3) (ax az : ℝ) : Vec3 :=
  let nd := normalize (applyEulerXYZ tangent ax 0 az)
  normalize ⟨nd.x, nd.y + 0.3, nd.z⟩

/-- `createOrganicBranch` of the seasonal tree demo (`CONFIG.tree`: shrink
0.7, split angle 0.5, leaf density 7): at depth 0 it emits `leafCount`
leaves (0 in winter) and no segment; otherwise it emits one curved tube
through a randomly wiggled midpoint and recurses into 2 children, or 3 when
the count draw exceeds 0.6, at depth - 1.  `tangentAt` stands for THREE's
`CatmullRomCurve3.getTangentAt(1)` on the curve's three control points. -/
def createOrganicBranch (g : ℕ → ℝ) (tangentAt : Vec3 → Vec3 → Vec3 → Vec3)
    (leafCount : ℕ) : ℕ → Vec3 → Vec3 → ℝ → ℝ → ℕ → List TreeItem × ℕ
  | 0, start, _, _, _, i => mkLeaves g start leafCount i
  | d + 1, start, dir, len, rad, i =>
    let endP := vadd start (smul len dir)
    let mid : Vec3 := ⟨(start.x + endP.x) / 2 + (g i - 0.5) * len * 0.15,
      (start.y + endP.y) / 2,
      (start.z + endP.z) / 2 + (g (i + 1) - 0.5) * len * 0.15⟩
    let tangent := tangentAt start mid endP
    let d1 := childDir tangent ((g (i + 3) - 0.5) * (0.5 * 2)) ((g (i + 4) - 0.5) * (0.5 * 2))
    let r1 := createOrganicBranch g tangentAt leafCount d endP d1 (len * 0.7) (rad * 0.7) (i + 5)
    let d2 := childDir tangent ((g r1.2 - 0.5) * (0.5 * 2)) ((g (r1.2 + 1) - 0.5) * (0.5 * 2))
    let r2 := createOrganicBranch g tangentAt leafCount d endP d2 (len * 0.7) (rad * 0.7) (r1.2 + 2)
    if g (i + 2) > 0.6 then
      let d3 := childDir tangent ((g r2.2 - 0.5) * (0.5 * 2)) ((g (r2.2 + 1) - 0.5) * (0.5 * 2))
      let r3 := createOrganicBranch g tangentAt leafCount d endP d3 (len * 0.7) (rad * 0.7) (r2.2 + 2)
      (TreeItem.tube start mid endP rad :: (r1.1 ++ r2.1 ++ r3.1), r3.2)
    else
      (TreeItem.tube start mid endP rad :: (r1.1 ++ r2.1), r2.2)

end

end Scenery.OrganicTree

namespace Scenery

noncomputable section

open Real

/-- The bird's initial state from the `Bird` constructor: position
`(0, 200, 400)`, velocity `(0, 0, -1)`, speed 2, level attitude. -/
def sampleBird : BirdDemo.BirdState := ⟨⟨0, 200, 400⟩, ⟨0, 0, -1⟩, 2.0, 0, 0, 0⟩

/-- A bird already diving at full pitch with speed 3.5, far above the
terrain. -/
def diveBird : BirdDemo.BirdState := ⟨⟨0, 1000, 0⟩, ⟨0, 0, -1⟩, 3.5, 0, -0.8, 0⟩

/-- The condor's initial state from the `flight` literal: position
`(0, 300, 600)`, velocity `(0, 0, -1)`, speed 1, level attitude. -/
def sampleCondor : CondorDemo.CondorState := ⟨⟨0, 300, 600⟩, ⟨0, 0, -1⟩, 1.0, 0, 0, 0⟩

/-- A condor over the lake center, 35 units under the water surface but well
above the lake bed (elevation -50). -/
def crashCondor : CondorDemo.CondorState := ⟨⟨0, -35, 0⟩, ⟨0, 0, -1⟩, 2, 0, 0, 0⟩

/-- The first placement draw that puts a bird-demo tree at `x = 250π`. -/
def wr1 : ℝ := 250 * π / 1800 + 0.5

/-- The vegetation instance the bird demo emits from draws
`(wr1, 0.5, 0, 0)`: it sits at `(250π, h + 10, 0)` where `h` is the terrain
height there. -/
def instW : VegInstance :=
  ⟨⟨250 * π, BirdDemo.getTerrainHeight (250 * π) 0 + 10, 0⟩, 0.8, 0⟩

lemma sc_abs (a b : ℝ) : |Real.sin a * Real.cos b| ≤ 1 := by
  rw [abs_mul]
  calc |Real.sin a| * |Real.cos b| ≤ 1 * 1 :=
        mul_le_mul (Real.abs_sin_le_one a) (Real.abs_cos_le_one b) (abs_nonneg _) zero_le_one
    _ = 1 := one_mul 1

lemma sc_bounds (a b : ℝ) : -1 ≤ Real.sin a * Real.cos b ∧ Real.sin a * Real.cos b ≤ 1 :=
  abs_le.mp (sc_abs a b)

lemma lerp_mem (a b t : ℝ) (h0 : 0 ≤ t) (h1 : t ≤ 1) :
    min a b ≤ lerp a b t ∧ lerp a b t ≤ max a b := by
  unfold lerp
  rcases le_total a b with hab | hab
  · rw [min_eq_left hab, max_eq_right hab]
    constructor <;> nlinarith
  · rw [min_eq_right hab, max_eq_left hab]
    constructor <;> nlinarith

lemma fbm_bounds (x z : ℝ) : -240 ≤ BirdDemo.fbm x z ∧ BirdDemo.fbm x z ≤ 240 := by
  obtain ⟨l1, u1⟩ := sc_bounds (x * 0.002) (z * 0.002)
  obtain ⟨l2, u2⟩ := sc_bounds (x * 0.004 + 1.2) (z * 0.004 + 1.2)
  have a3 : (0 : ℝ) ≤ |Real.sin (x * 0.008) * Real.cos (z * 0.008)| := abs_nonneg _
  have a3' := sc_abs (x * 0.008) (z * 0.008)
  have l4 := Real.neg_one_le_sin (x * 0.016 * 2)
  have u4 := Real.sin_le_one (x * 0.016 * 2)
  have l5 := Real.neg_one_le_cos (z * 0.016 * 2)
  have u5 := Real.cos_le_one (z * 0.016 * 2)
  unfold BirdDemo.fbm
  constructor <;> nlinarith

lemma getTerrainHeight_bounds (x z : ℝ) :
    -240 ≤ BirdDemo.getTerrainHeight x z ∧ BirdDemo.getTerrainHeight x z ≤ 240 := by
  obtain ⟨hl, hu⟩ := fbm_bounds x z
  have hd0 : 0 ≤ Real.sqrt (x * x + z * z) := Real.sqrt_nonneg _
  simp only [BirdDemo.getTerrainHeight]
  split_ifs with hd
  · have ht0 : (0 : ℝ) ≤ 1.0 - Real.sqrt (x * x + z * z) / 400 := by linarith
    have ht1 : (1.0 : ℝ) - Real.sqrt (x * x + z * z) / 400 ≤ 1 := by
      have : 0 ≤ Real.sqrt (x * x + z * z) / 400 := by positivity
      linarith
    obtain ⟨hm1, hm2⟩ := lerp_mem (BirdDemo.fbm x z) (-20) _ ht0 ht1
    have hmin : (-240 : ℝ) ≤ min (BirdDemo.fbm x z) (-20) := le_min hl (by norm_num)
    have hmax : max (BirdDemo.fbm x z) (-20) ≤ 240 := max_le hu (by norm_num)
    exact ⟨by linarith, by linarith⟩
  · exact ⟨hl, hu⟩

lemma condor_noise_bounds (x z : ℝ) :
    -475 ≤ CondorDemo.noise x z ∧ CondorDemo.noise x z ≤ 475 := by
  obtain ⟨l1, u1⟩ := sc_bounds (x * 0.0015) (z * 0.0015)
  obtain ⟨l2, u2⟩ := sc_bounds (x * 0.00375 + 1.5) (z * 0.00375 + 0.5)
  obtain ⟨l3, u3⟩ := sc_bounds (x * 0.015) (z * 0.015)
  obtain ⟨l4, u4⟩ := sc_bounds (x * 0.045) (z * 0.0525)
  unfold CondorDemo.noise
  constructor <;> nlinarith

lemma getAltitude_bounds (x z : ℝ) :
    -475 ≤ CondorDemo.getAltitude x z ∧ CondorDemo.getAltitude x z ≤ 525 := by
  obtain ⟨hn1, hn2⟩ := condor_noise_bounds x z
  have hd0 : 0 ≤ Real.sqrt (x * x + z * z) := Real.sqrt_nonneg _
  have hs1 := Real.neg_one_le_sin (x * 0.01)
  have hs2 := Real.sin_le_one (x * 0.01)
  have ha1 : (0 : ℝ) ≤ |Real.sin (x * 0.05 + z * 0.05)| := abs_nonneg _
  have ha2 : |Real.sin (x * 0.05 + z * 0.05)| ≤ 1 := Real.abs_sin_le_one _
  simp only [CondorDemo.getAltitude]
  set d := Real.sqrt (x * x + z * z) with hdd
  set vf : ℝ := if d < 600 then 1.0 else if d < 600 + 400 then 1.0 - (d - 600) / 400 else 0
    with hvf
  have hvf0 : 0 ≤ vf := by
    rw [hvf]; split_ifs with h1 h2
    · norm_num
    · push_neg at h1; linarith
    · exact le_refl 0
  have hvf1 : vf ≤ 1 := by
    rw [hvf]; split_ifs with h1 h2
    · norm_num
    · push_neg at h1; linarith
    · norm_num
  have ht0 : 0 ≤ vf * vf := mul_nonneg hvf0 hvf0
  have ht1 : vf * vf ≤ 1 := by nlinarith
  set lake := -50 - Real.sin (x * 0.01) * 10 with hlk
  have hlake1 : -60 ≤ lake := by rw [hlk]; linarith
  have hlake2 : lake ≤ -40 := by rw [hlk]; linarith
  set h1v := if vf > 0 then lerp (CondorDemo.noise x z) lake (vf * vf) else CondorDemo.noise x z
    with hh1
  have hb : -475 ≤ h1v ∧ h1v ≤ 475 := by
    rw [hh1]; split_ifs with hv
    · obtain ⟨hm1, hm2⟩ := lerp_mem (CondorDemo.noise x z) lake _ ht0 ht1
      have hmin : (-475 : ℝ) ≤ min (CondorDemo.noise x z) lake := le_min hn1 (by linarith)
      have hmax : max (CondorDemo.noise x z) lake ≤ 475 := max_le hn2 (by linarith)
      exact ⟨by linarith, by linarith⟩
    · exact ⟨hn1, hn2⟩
  split_ifs with hr
  · exact ⟨by linarith [hb.1], by linarith [hb.2]⟩
  · exact ⟨hb.1, by linarith [hb.2]⟩

/-- Claim C9: for every input pair the elevation returned by the height
functions is bounded inside a fixed interval — the summed octave amplitudes
give the ceiling and the basin blend stays between the fbm value and the
basin floor.  The concrete bounds are `[-240, 240]` for the bird-flight
demo's `getTerrainHeight` (octave amplitudes 120+60+30+30) and `[-475, 525]`
for the condor demo's `getAltitude` (layer amplitudes 300+150+20+5, plus the
ridge term of at most 50 added above elevation 100). -/
theorem C9_elevation_bounded (x z : ℝ) :
    (-240 ≤ BirdDemo.getTerrainHeight x z ∧ BirdDemo.getTerrainHeight x z ≤ 240) ∧
    (-475 ≤ CondorDemo.getAltitude x z ∧ CondorDemo.getAltitude x z ≤ 525) :=
  ⟨getTerrainHeight_bounds x z, getAltitude_bounds x z⟩

/-- Claim C4 (amended): the base noise functions are bounded by the sum of
their layer amplitudes — `|noise| ≤ 80` in the Bariloche demo and
`|noise| ≤ 475` in the condor demo — but they are signed sin/cos sums, not
values in `[0, 1]`. -/
theorem C4_noise_bounded (x z : ℝ) :
    |Bariloche.noise x z| ≤ 80 ∧ |CondorDemo.noise x z| ≤ 475 := by
  constructor
  · obtain ⟨l1, u1⟩ := sc_bounds (x * 0.005) (z * 0.005)
    have l2 := Real.neg_one_le_sin (x * 0.01 + z * 0.02)
    have u2 := Real.sin_le_one (x * 0.01 + z * 0.02)
    have a3 : (0 : ℝ) ≤ |Real.sin (x * 0.03)| := abs_nonneg _
    have a3' : |Real.sin (x * 0.03)| ≤ 1 := Real.abs_sin_le_one _
    unfold Bariloche.noise
    rw [abs_le]
    constructor <;> nlinarith
  · rw [abs_le]
    exact condor_noise_bounds x z

/-- Claim C4, counterexample: at `(100π, 0)` the Bariloche demo's base noise
evaluates to 50, far outside the `[0, 1]` interval asserted by the spec's
noise contract. -/
theorem C4_counterexample : 1 < Bariloche.noise (100 * π) 0 := by
  have h3 : Real.sin (3 * π) = 0 := by simpa using Real.sin_nat_mul_pi 3
  unfold Bariloche.noise
  rw [show 100 * π * 0.005 = π / 2 by ring,
    show 100 * π * 0.01 + (0 : ℝ) * 0.02 = π by ring,
    show 100 * π * 0.03 = 3 * π by ring,
    Real.sin_pi_div_two, Real.sin_pi, h3]
  norm_num [Real.cos_zero]

lemma birdAux_pitch (s : BirdDemo.BirdState) (tX tY : ℝ) :
    (BirdDemo.birdAux s tX tY).pitch = lerp s.pitch (tY * 0.8) 0.1 := rfl

lemma birdAux_speed (s : BirdDemo.BirdState) (tX tY : ℝ) :
    (BirdDemo.birdAux s tX tY).speed =
      if lerp s.pitch (tY * 0.8) 0.1 < -0.2 then s.speed + 0.01
      else s.speed + (2.0 - s.speed) * 0.01 := rfl

lemma birdCollide_speed (b : BirdDemo.BirdState) :
    (BirdDemo.birdCollide b).speed = b.speed := by
  simp only [BirdDemo.birdCollide]
  split_ifs <;> rfl

lemma birdCollide_pitch (b : BirdDemo.BirdState) :
    (BirdDemo.birdCollide b).pitch = 0.5 ∨ (BirdDemo.birdCollide b).pitch = b.pitch := by
  simp only [BirdDemo.birdCollide]
  split_ifs
  · exact Or.inl rfl
  · exact Or.inr rfl

lemma birdUpdate_speed (s : BirdDemo.BirdState) (tX tY : ℝ) :
    (BirdDemo.birdUpdate s tX tY).speed = (BirdDemo.birdAux s tX tY).speed :=
  birdCollide_speed _

lemma condorAux_speed (s : CondorDemo.CondorState) (inX inY : ℝ) :
    (CondorDemo.condorAux s inX inY).speed =
      s.speed + (2.0 + (if inY > 0 then inY * 1.5 else 0) - s.speed) * 0.05 := rfl

lemma condorCollide_speed (b : CondorDemo.CondorState) :
    (CondorDemo.condorCollide b).speed = b.speed := by
  simp only [CondorDemo.condorCollide]
  split_ifs <;> rfl

lemma condorUpdate_speed (s : CondorDemo.CondorState) (inX inY : ℝ) :
    (CondorDemo.condorUpdate s inX inY).speed = (CondorDemo.condorAux s inX inY).speed :=
  condorCollide_speed _

/-- Claim C1 (amended): `getTerrainHeight` and `getAltitude` are pure
functions of the coordinates, and `mountainNoise` is a pure function of the
coordinates and its `Math.random()` draw — but the determinism over `(x, z)`
alone asserted by the claim holds only for the first two (see the
counterexample for `mountainNoise`). -/
theorem C1_deterministic (x1 z1 x2 z2 r1 r2 : ℝ)
    (hx : x1 = x2) (hz : z1 = z2) (hr : r1 = r2) :
    BirdDemo.getTerrainHeight x1 z1 = BirdDemo.getTerrainHeight x2 z2 ∧
    CondorDemo.getAltitude x1 z1 = CondorDemo.getAltitude x2 z2 ∧
    Bariloche.mountainNoise x1 z1 r1 = Bariloche.mountainNoise x2 z2 r2 := by
  subst hx; subst hz; subst hr
  exact ⟨rfl, rfl, rfl⟩

/-- Claim C1, witness: the determinism theorem applied at the origin. -/
theorem C1_deterministic_witness :
    BirdDemo.getTerrainHeight 0 0 = BirdDemo.getTerrainHeight 0 0 ∧
    CondorDemo.getAltitude 0 0 = CondorDemo.getAltitude 0 0 ∧
    Bariloche.mountainNoise 0 0 0.5 = Bariloche.mountainNoise 0 0 0.5 :=
  C1_deterministic 0 0 0 0 0.5 0.5 rfl rfl rfl

/-- Claim C1, counterexample: the Bariloche mountain height signal mixes a
`Math.random()` draw into the elevation, so two calls at the identical
coordinates `(0, 0)` with different draws (0 and 0.5) return different
elevations — the height signal is not deterministic in `(x, z)`. -/
theorem C1_counterexample :
    Bariloche.mountainNoise 0 0 0 ≠ Bariloche.mountainNoise 0 0 0.5 := by
  unfold Bariloche.mountainNoise
  intro h
  linarith

lemma classify004_mono {e1 e2 : ℝ} (h : e1 ≤ e2) :
    (BirdDemo.classify e1).rank ≤ (BirdDemo.classify e2).rank := by
  unfold BirdDemo.classify BirdDemo.waterLevel
  split_ifs <;> simp [Biome.rank] <;> linarith

lemma classify000_mono {e1 e2 : ℝ} (h : e1 ≤ e2) :
    (Bariloche.classify e1).rank ≤ (Bariloche.classify e2).rank := by
  unfold Bariloche.classify
  split_ifs <;> simp [Biome.rank] <;> linarith

/-- Claim C7: the biome band of the terrain coloring loops is a pure function
of elevation (`classify` takes only the elevation) and monotone in it: for
elevations `e1 < e2` above the water threshold, the band of `e2` is never a
more aquatic (lower-ranked) band than the band of `e1`, in both the
bird-flight demo and the Bariloche demo. -/
theorem C7_biome_monotone (e1 e2 : ℝ) (h12 : e1 < e2) (hw : BirdDemo.waterLevel < e1) :
    (BirdDemo.classify e1).rank ≤ (BirdDemo.classify e2).rank ∧
    (Bariloche.classify e1).rank ≤ (Bariloche.classify e2).rank :=
  ⟨classify004_mono h12.le, classify000_mono h12.le⟩

/-- Claim C7, witness: the monotonicity theorem applied to the elevations 10
(grass in both demos) and 100 (rock in the bird demo, grass in Bariloche). -/
theorem C7_biome_monotone_witness :
    ((10 : ℝ) < 100 ∧ BirdDemo.waterLevel < 10) ∧
    ((BirdDemo.classify 10).rank ≤ (BirdDemo.classify 100).rank ∧
      (Bariloche.classify 10).rank ≤ (Bariloche.classify 100).rank) :=
  ⟨⟨by norm_num, by norm_num [BirdDemo.waterLevel]⟩,
    C7_biome_monotone 10 100 (by norm_num) (by norm_num [BirdDemo.waterLevel])⟩

/-- Claim C10: `Bird.update` preserves the pitch bound `|pitch| ≤ 0.8` for
normalized vertical input: the smoothing branch moves pitch a tenth of the
way toward `0.8 * targetY ∈ [-0.8, 0.8]`, and the collision branch sets it to
the constant 0.5. -/
theorem C10_pitch_invariant (s : BirdDemo.BirdState) (tX tY : ℝ)
    (hy : |tY| ≤ 1) (hp : |s.pitch| ≤ 0.8) :
    |(BirdDemo.birdUpdate s tX tY).pitch| ≤ 0.8 := by
  obtain ⟨hy1, hy2⟩ := abs_le.mp hy
  obtain ⟨hp1, hp2⟩ := abs_le.mp hp
  rcases birdCollide_pitch (BirdDemo.birdAux s tX tY) with h | h
  · show |(BirdDemo.birdCollide (BirdDemo.birdAux s tX tY)).pitch| ≤ 0.8
    rw [h, abs_le]
    constructor <;> norm_num
  · show |(BirdDemo.birdCollide (BirdDemo.birdAux s tX tY)).pitch| ≤ 0.8
    rw [h, birdAux_pitch]
    unfold lerp
    rw [abs_le]
    constructor <;> nlinarith

/-- Claim C10, witness: the pitch invariant applied to the bird's initial
state (pitch 0) with neutral input. -/
theorem C10_pitch_invariant_witness :
    (|(0 : ℝ)| ≤ 1 ∧ |sampleBird.pitch| ≤ 0.8) ∧
    |(BirdDemo.birdUpdate sampleBird 0 0).pitch| ≤ 0.8 :=
  ⟨⟨by norm_num, by norm_num [sampleBird]⟩,
    C10_pitch_invariant sampleBird 0 0 (by norm_num) (by norm_num [sampleBird])⟩

lemma rotZ_back (a : ℝ) : rotZ a ⟨0, 0, -1⟩ = ⟨0, 0, -1⟩ := by
  simp [rotZ]

lemma birdAux_roll_position (b : BirdDemo.BirdState) (r tX tY : ℝ) :
    (BirdDemo.birdAux { b with roll := r } tX tY).position
      = (BirdDemo.birdAux b tX tY).position := rfl

lemma condorAux_roll_pos (c : CondorDemo.CondorState) (r inX inY : ℝ) :
    (CondorDemo.condorAux { c with roll := r } inX inY).pos
      = (CondorDemo.condorAux c inX inY).pos := by
  simp only [CondorDemo.condorAux, applyEulerXYZ, rotZ_back]

lemma birdCollide_pos_congr (b1 b2 : BirdDemo.BirdState)
    (h : b1.position = b2.position) :
    (BirdDemo.birdCollide b1).position = (BirdDemo.birdCollide b2).position := by
  simp only [BirdDemo.birdCollide]
  rw [h]
  split_ifs
  · rfl
  · exact h

lemma condorCollide_pos_congr (b1 b2 : CondorDemo.CondorState)
    (h : b1.pos = b2.pos) :
    (CondorDemo.condorCollide b1).pos = (CondorDemo.condorCollide b2).pos := by
  simp only [CondorDemo.condorCollide]
  rw [h]
  split_ifs
  · rfl
  · exact h

/-- Claim C8: roll never affects heading.  In the bird demo the forward
vector is built from a yaw-then-pitch Euler with the roll slot zeroed; in the
condor demo the roll enters the Euler but rotates the forward axis
`(0, 0, -1)` about itself, so it drops out.  Hence two states equal except in
roll produce identical post-update positions (and so identical
displacements). -/
theorem C8_roll_independent (b : BirdDemo.BirdState) (c : CondorDemo.CondorState)
    (r tX tY inX inY : ℝ) :
    (BirdDemo.birdUpdate { b with roll := r } tX tY).position
      = (BirdDemo.birdUpdate b tX tY).position ∧
    (CondorDemo.condorUpdate { c with roll := r } inX inY).pos
      = (CondorDemo.condorUpdate c inX inY).pos := by
  exact ⟨birdCollide_pos_congr _ _ (birdAux_roll_position b r tX tY),
    condorCollide_pos_congr _ _ (condorAux_roll_pos c r inX inY)⟩

lemma birdCollide_above (b : BirdDemo.BirdState) :
    (BirdDemo.birdCollide b).position.y >
      max (BirdDemo.getTerrainHeight (BirdDemo.birdCollide b).position.x
        (BirdDemo.birdCollide b).position.z) BirdDemo.waterLevel := by
  simp only [BirdDemo.birdCollide]
  split_ifs with hc
  · show max (BirdDemo.getTerrainHeight b.position.x b.position.z) BirdDemo.waterLevel + 10 >
      max (BirdDemo.getTerrainHeight b.position.x b.position.z) BirdDemo.waterLevel
    linarith
  · push_neg at hc
    linarith

lemma condorCollide_min (b : CondorDemo.CondorState) :
    (CondorDemo.condorCollide b).pos.y ≥
      CondorDemo.getAltitude (CondorDemo.condorCollide b).pos.x
        (CondorDemo.condorCollide b).pos.z + 10 := by
  simp only [CondorDemo.condorCollide]
  split_ifs with hc
  · show CondorDemo.getAltitude b.pos.x b.pos.z + 10 ≥
      CondorDemo.getAltitude b.pos.x b.pos.z + 10
    exact le_refl _
  · push_neg at hc
    exact hc

/-- Claim C2 (amended): one `Bird.update` tick always leaves the bird
strictly above `max(height, waterLevel)` at its new horizontal position
(with at least 2 units of clearance when no collision fired, 10 when one
did).  The condor demo guarantees only `height + 10`, with no water-level
term: the condor can legally remain below the lake surface (see the
counterexample). -/
theorem C2_collision_resolved (s : BirdDemo.BirdState) (c : CondorDemo.CondorState)
    (tX tY inX inY : ℝ) :
    (BirdDemo.birdUpdate s tX tY).position.y >
      max (BirdDemo.getTerrainHeight (BirdDemo.birdUpdate s tX tY).position.x
        (BirdDemo.birdUpdate s tX tY).position.z) BirdDemo.waterLevel ∧
    (CondorDemo.condorUpdate c inX inY).pos.y ≥
      CondorDemo.getAltitude (CondorDemo.condorUpdate c inX inY).pos.x
        (CondorDemo.condorUpdate c inX inY).pos.z + 10 :=
  ⟨birdCollide_above (BirdDemo.birdAux s tX tY),
    condorCollide_min (CondorDemo.condorAux c inX inY)⟩

lemma getAltitude_x0 (z : ℝ) (h : z * z < 360000) : CondorDemo.getAltitude 0 z = -50 := by
  have hd : Real.sqrt (0 * 0 + z * z) < 600 := by
    rw [Real.sqrt_lt' (by norm_num : (0 : ℝ) < 600)]
    nlinarith
  simp only [CondorDemo.getAltitude]
  rw [if_pos hd, if_pos (by norm_num : (1.0 : ℝ) > 0)]
  have hval : lerp (CondorDemo.noise 0 z) (-50 - Real.sin (0 * 0.01) * 10) (1.0 * 1.0) = -50 := by
    unfold lerp
    rw [show (0 : ℝ) * 0.01 = 0 by ring, Real.sin_zero]
    ring
  rw [hval, if_neg (by norm_num : ¬((-50 : ℝ) > 100))]

lemma condorAux_crash :
    CondorDemo.condorAux crashCondor 0 0 = ⟨⟨0, -35, -2⟩, ⟨0, 0, -1⟩, 2, 0, 0, 0⟩ := by
  simp only [CondorDemo.condorAux, crashCondor, applyEulerXYZ, rotX, rotY, rotZ,
    normalize, lenV, vadd, smul]
  norm_num [Real.sin_zero, Real.cos_zero, Real.sqrt_one]

lemma condorUpdate_crash :
    CondorDemo.condorUpdate crashCondor 0 0 = ⟨⟨0, -35, -2⟩, ⟨0, 0, -1⟩, 2, 0, 0, 0⟩ := by
  show CondorDemo.condorCollide (CondorDemo.condorAux crashCondor 0 0) = _
  rw [condorAux_crash]
  simp only [CondorDemo.condorCollide]
  rw [getAltitude_x0 (-2) (by norm_num), if_neg (by norm_num : ¬((-35 : ℝ) < -50 + 10))]

/-- Claim C2, counterexample: in the condor demo a state 35 units below the
lake surface (water level 0) over the lake center (lake-bed elevation -50) is
below `max(height, waterLevel)`, yet one tick with neutral input leaves it at
`y = -35`, still not above `max(height, waterLevel) = 0` at the new position:
the condor's terrain check has no water-level term, so the claimed resolution
fails there. -/
theorem C2_counterexample :
    crashCondor.pos.y <
      max (CondorDemo.getAltitude crashCondor.pos.x crashCondor.pos.z) CondorDemo.waterLevel ∧
    ¬ ((CondorDemo.condorUpdate crashCondor 0 0).pos.y >
        max (CondorDemo.getAltitude (CondorDemo.condorUpdate crashCondor 0 0).pos.x
          (CondorDemo.condorUpdate crashCondor 0 0).pos.z) CondorDemo.waterLevel) := by
  have h0 : CondorDemo.getAltitude 0 0 = -50 := getAltitude_x0 0 (by norm_num)
  have h2 : CondorDemo.getAltitude 0 (-2) = -50 := getAltitude_x0 (-2) (by norm_num)
  have hmax : max (-50 : ℝ) 0 = 0 := max_eq_right (by norm_num)
  constructor
  · show (-35 : ℝ) < max (CondorDemo.getAltitude 0 0) CondorDemo.waterLevel
    rw [h0]
    show (-35 : ℝ) < max (-50) 0
    rw [hmax]
    norm_num
  · rw [condorUpdate_crash]
    show ¬ ((-35 : ℝ) > max (CondorDemo.getAltitude 0 (-2)) CondorDemo.waterLevel)
    rw [h2]
    show ¬ ((-35 : ℝ) > max (-50) 0)
    rw [hmax]
    norm_num

/-- Claim C6 (amended): the condor demo's speed is confined to the interval
`[1, 3.5]` (initial speed 1, target speed at most `2 + 1.5`), but the
bird-flight demo has no speed clamp: one tick only guarantees
`min(speed, 2) ≤ speed' ≤ max(speed, 2) + 0.01` — the cruise branch eases
toward 2 while every diving tick adds 0.01 without any upper bound (see the
counterexample). -/
theorem C6_speed (c : CondorDemo.CondorState) (b : BirdDemo.BirdState) (inX inY tX tY : ℝ)
    (h1 : 1 ≤ c.speed) (h2 : c.speed ≤ 3.5) (hy : |inY| ≤ 1) :
    (1 ≤ (CondorDemo.condorUpdate c inX inY).speed ∧
      (CondorDemo.condorUpdate c inX inY).speed ≤ 3.5) ∧
    (min b.speed 2 ≤ (BirdDemo.birdUpdate b tX tY).speed ∧
      (BirdDemo.birdUpdate b tX tY).speed ≤ max b.speed 2 + 0.01) := by
  obtain ⟨hy1, hy2⟩ := abs_le.mp hy
  constructor
  · rw [condorUpdate_speed, condorAux_speed]
    split_ifs with hpos
    · constructor <;> linarith
    · constructor <;> linarith
  · rw [birdUpdate_speed, birdAux_speed]
    rcases le_total b.speed 2 with hs | hs
    · rw [min_eq_left hs, max_eq_right hs]
      split_ifs <;> constructor <;> linarith
    · rw [min_eq_right hs, max_eq_left hs]
      split_ifs <;> constructor <;> linarith

/-- Claim C6, witness: the speed bounds applied to the two demos' initial
states with neutral input. -/
theorem C6_speed_witness :
    ((1 : ℝ) ≤ sampleCondor.speed ∧ sampleCondor.speed ≤ 3.5 ∧ |(0 : ℝ)| ≤ 1) ∧
    ((1 ≤ (CondorDemo.condorUpdate sampleCondor 0 0).speed ∧
        (CondorDemo.condorUpdate sampleCondor 0 0).speed ≤ 3.5) ∧
      (min sampleBird.speed 2 ≤ (BirdDemo.birdUpdate sampleBird 0 0).speed ∧
        (BirdDemo.birdUpdate sampleBird 0 0).speed ≤ max sampleBird.speed 2 + 0.01)) :=
  ⟨⟨by norm_num [sampleCondor], by norm_num [sampleCondor], by norm_num⟩,
    C6_speed sampleCondor sampleBird 0 0 0 0 (by norm_num [sampleCondor])
      (by norm_num [sampleCondor]) (by norm_num)⟩

/-- Claim C6, counterexample: the bird demo has no `[minSpeed, maxSpeed]`
clamp.  From speed 3.5 — the largest speed value configured anywhere in the
repository (the condor demo's top target speed) — one diving tick produces
speed 3.51, exceeding it; the diving branch `speed += 0.01` applies with no
upper bound. -/
theorem C6_counterexample :
    (BirdDemo.birdUpdate diveBird 0 (-1)).speed = 3.51 ∧ (3.5 : ℝ) < 3.51 := by
  constructor
  · have hc : lerp diveBird.pitch (-1 * 0.8) 0.1 < -0.2 := by
      norm_num [diveBird, lerp]
    rw [birdUpdate_speed, birdAux_speed, if_pos hc]
    norm_num [diveBird]
  · norm_num

/-- Claim C5 (amended): in the bird-flight demo, every emitted (non-degenerate)
vegetation instance satisfies the height band
`waterLevel + 5 < height(x, z) < 140` at its own horizontal position, and its
vertical placement is that same height plus 10.  The Bariloche demo's
scatterer does not consult the height function at all (see the
counterexample). -/
theorem C5_placement (r1 r2 r3 r4 : ℝ) (inst : VegInstance)
    (h : BirdDemo.emitTree r1 r2 r3 r4 = some inst) :
    BirdDemo.waterLevel + 5 < BirdDemo.getTerrainHeight inst.pos.x inst.pos.z ∧
    BirdDemo.getTerrainHeight inst.pos.x inst.pos.z < 140 ∧
    inst.pos.y = BirdDemo.getTerrainHeight inst.pos.x inst.pos.z + 10 := by
  simp only [BirdDemo.emitTree] at h
  split_ifs at h with hb
  obtain ⟨hb1, hb2⟩ := hb
  injection h with h2
  subst h2
  exact ⟨hb1, hb2, rfl⟩

lemma getTerrainHeight_note :
    BirdDemo.getTerrainHeight (250 * π) 0 = 135 - Real.sin 1.2 * Real.cos 1.2 * 60 := by
  have hpi := Real.pi_gt_three
  have hdist : Real.sqrt (250 * π * (250 * π) + 0 * 0) = 250 * π := by
    rw [show 250 * π * (250 * π) + 0 * 0 = (250 * π) ^ 2 by ring]
    exact Real.sqrt_sq (by positivity)
  have h8 : Real.sin (8 * π) = 0 := by simpa using Real.sin_nat_mul_pi 8
  simp only [BirdDemo.getTerrainHeight]
  rw [hdist, if_neg (by nlinarith : ¬(250 * π < 400))]
  unfold BirdDemo.fbm
  rw [show 250 * π * 0.002 = π / 2 by ring, Real.sin_pi_div_two,
    show 250 * π * 0.004 + 1.2 = 1.2 + π by ring, Real.sin_add_pi,
    show 250 * π * 0.008 = 2 * π by ring, Real.sin_two_pi,
    show 250 * π * 0.016 * 2 = 8 * π by ring, h8]
  norm_num [Real.cos_zero]
  ring

lemma note_band :
    BirdDemo.waterLevel + 5 < BirdDemo.getTerrainHeight (250 * π) 0 ∧
    BirdDemo.getTerrainHeight (250 * π) 0 < 140 := by
  rw [getTerrainHeight_note]
  have hpi := Real.pi_gt_three
  have hs0 : 0 < Real.sin 1.2 :=
    Real.sin_pos_of_pos_of_lt_pi (by norm_num) (by linarith)
  have hc0 : 0 < Real.cos 1.2 :=
    Real.cos_pos_of_mem_Ioo ⟨by linarith, by linarith⟩
  have hs1 : Real.sin 1.2 ≤ 1 := Real.sin_le_one _
  have hc1 : Real.cos 1.2 ≤ 1 := Real.cos_le_one _
  unfold BirdDemo.waterLevel
  constructor <;> nlinarith

lemma emitW_eq : BirdDemo.emitTree wr1 0.5 0 0 = some instW := by
  have hx : (wr1 - 0.5) * 2000 * 0.9 = 250 * π := by unfold wr1; ring
  have hz : ((0.5 : ℝ) - 0.5) * 2000 * 0.9 = 0 := by norm_num
  simp only [BirdDemo.emitTree]
  rw [hx, hz, if_pos note_band]
  simp only [instW, Option.some.injEq]
  norm_num

/-- Claim C5, witness: from draws `(wr1, 0.5, 0, 0)` the bird demo emits the
instance at `x = 250π, z = 0`, and the placement theorem yields its height
band and vertical derivation. -/
theorem C5_placement_witness :
    BirdDemo.emitTree wr1 0.5 0 0 = some instW ∧
    (BirdDemo.waterLevel + 5 < BirdDemo.getTerrainHeight instW.pos.x instW.pos.z ∧
      BirdDemo.getTerrainHeight instW.pos.x instW.pos.z < 140 ∧
      instW.pos.y = BirdDemo.getTerrainHeight instW.pos.x instW.pos.z + 10) :=
  ⟨emitW_eq, C5_placement wr1 0.5 0 0 instW emitW_eq⟩

/-- Claim C5, counterexample: from draws `(0.6, 0.4, 0, 0.5)` the Bariloche
scatterer emits an instance at `(150, 20, -150)` — accepted by its position
test alone — while the terrain height at `(150, -150)` is 55 for the
corresponding vertex draws: the tree sits 35 units below the terrain surface,
so the emitted instance neither passed a height-band predicate nor derives
its vertical placement from the height function. -/
theorem C5_counterexample :
    Bariloche.emitTree 0.6 0.4 0 0.5 = some ⟨⟨150, 20, -150⟩, 0.75, 0⟩ ∧
    Bariloche.finalH 150 (-150) 0.5 0.5 = 55 ∧ (20 : ℝ) < 55 := by
  refine ⟨?_, ?_, by norm_num⟩
  · have hx : ((0.6 : ℝ) - 0.5) * 1500 = 150 := by norm_num
    have hz : ((0.4 : ℝ) - 0.5) * 1500 = -150 := by norm_num
    have habs : |(150 : ℝ)| = 150 := abs_of_pos (by norm_num)
    simp only [Bariloche.emitTree]
    rw [hx, hz, if_pos ⟨by norm_num, by norm_num, by rw [habs]; norm_num⟩,
      Option.some.injEq]
    norm_num
  · have hcam : ¬(Real.sqrt (150 * 150 + ((-150 : ℝ) - 100) * ((-150 : ℝ) - 100)) < 80) := by
      intro hlt
      rw [Real.sqrt_lt' (by norm_num : (0 : ℝ) < 80)] at hlt
      norm_num at hlt
    simp only [Bariloche.finalH]
    rw [if_neg hcam, if_neg (by norm_num : ¬((-150 : ℝ) < -300)),
      if_neg (by norm_num : ¬((-150 : ℝ) > 100))]
    unfold lerp
    norm_num

lemma createLeaves_count (g : ℕ → ℝ) (pos : Vec3) :
    ∀ n i, countSegs (TreeDemo.createLeaves g pos n i).1 = 0 := by
  intro n
  induction n with
  | zero => intro i; rfl
  | succ n ih =>
    intro i
    simp only [TreeDemo.createLeaves, countSegs, List.countP_cons]
    have h := ih (i + 6)
    simp only [countSegs] at h
    rw [h]
    simp [TreeItem.isBranch]

lemma mkLeaves_count (g : ℕ → ℝ) (pos : Vec3) :
    ∀ n i, countSegs (OrganicTree.mkLeaves g pos n i).1 = 0 := by
  intro n
  induction n with
  | zero => intro i; rfl
  | succ n ih =>
    intro i
    simp only [OrganicTree.mkLeaves, countSegs, List.countP_cons]
    have h := ih (i + 8)
    simp only [countSegs] at h
    rw [h]
    simp [TreeItem.isBranch]

lemma branch_step (d : ℕ) (s0 d0 : Vec3) (l0 r0 : ℝ) (l1 l2 : List TreeItem)
    (h1 : countSegs l1 ≤ 2 ^ d - 1) (h2 : countSegs l2 ≤ 2 ^ d - 1) :
    countSegs (TreeItem.seg s0 d0 l0 r0 :: (l1 ++ l2)) ≤ 2 ^ (d + 1) - 1 := by
  have hp : 1 ≤ 2 ^ d := Nat.one_le_pow d 2 (by norm_num)
  simp only [countSegs, List.countP_cons, List.countP_append, TreeItem.isBranch,
    if_true] at *
  rw [pow_succ]
  omega

lemma organic_step3 (d : ℕ) (a b c : Vec3) (r0 : ℝ) (l1 l2 l3 : List TreeItem)
    (h1 : 2 * countSegs l1 ≤ 3 ^ d - 1) (h2 : 2 * countSegs l2 ≤ 3 ^ d - 1)
    (h3 : 2 * countSegs l3 ≤ 3 ^ d - 1) :
    2 * countSegs (TreeItem.tube a b c r0 :: (l1 ++ l2 ++ l3)) ≤ 3 ^ (d + 1) - 1 := by
  have hp : 1 ≤ 3 ^ d := Nat.one_le_pow d 3 (by norm_num)
  simp only [countSegs, List.countP_cons, List.countP_append, TreeItem.isBranch,
    if_true] at *
  rw [pow_succ]
  omega

lemma organic_step2 (d : ℕ) (a b c : Vec3) (r0 : ℝ) (l1 l2 : List TreeItem)
    (h1 : 2 * countSegs l1 ≤ 3 ^ d - 1) (h2 : 2 * countSegs l2 ≤ 3 ^ d - 1) :
    2 * countSegs (TreeItem.tube a b c r0 :: (l1 ++ l2)) ≤ 3 ^ (d + 1) - 1 := by
  have hp : 1 ≤ 3 ^ d := Nat.one_le_pow d 3 (by norm_num)
  simp only [countSegs, List.countP_cons, List.countP_append, TreeItem.isBranch,
    if_true] at *
  rw [pow_succ]
  omega

lemma createBranch_count (g : ℕ → ℝ) :
    ∀ d (start dir : Vec3) (len rad : ℝ) (i : ℕ),
      countSegs (TreeDemo.createBranch g d start dir len rad i).1 ≤ 2 ^ d - 1 := by
  intro d
  induction d with
  | zero =>
    intro start dir len rad i
    simp [TreeDemo.createBranch, createLeaves_count]
  | succ d ih =>
    intro start dir len rad i
    simp only [TreeDemo.createBranch]
    exact branch_step d _ _ _ _ _ _ (ih _ _ _ _ _) (ih _ _ _ _ _)

lemma organic_count (g : ℕ → ℝ) (tangentAt : Vec3 → Vec3 → Vec3 → Vec3) (leafCount : ℕ) :
    ∀ d (start dir : Vec3) (len rad : ℝ) (i : ℕ),
      2 * countSegs
        (OrganicTree.createOrganicBranch g tangentAt leafCount d start dir len rad i).1
        ≤ 3 ^ d - 1 := by
  intro d
  induction d with
  | zero =>
    intro start dir len rad i
    simp [OrganicTree.createOrganicBranch, mkLeaves_count]
  | succ d ih =>
    intro start dir len rad i
    simp only [OrganicTree.createOrganicBranch]
    split_ifs
    · exact organic_step3 d _ _ _ _ _ _ _ (ih _ _ _ _ _) (ih _ _ _ _ _) (ih _ _ _ _ _)
    · exact organic_step2 d _ _ _ _ _ _ (ih _ _ _ _ _) (ih _ _ _ _ _)

/-- Claim C3: both recursive tree generators terminate for every depth
`d ≥ 0` — each recursive call passes `depth - 1`, so the Lean embedding is
accepted as structural recursion on the depth — and the emitted branch
segments are bounded by the geometric sum `(k^(d+1) - 1)/(k - 1)`: at most
`2^(d+1) - 1` segments for `createBranch` (branch factor 2) and at most
`(3^(d+1) - 1)/2` for `createOrganicBranch` (branch factor at most 3). -/
theorem C3_generator_bound (g : ℕ → ℝ) (tangentAt : Vec3 → Vec3 → Vec3 → Vec3)
    (leafCount : ℕ) (start dir : Vec3) (len rad : ℝ) (d i : ℕ) :
    countSegs (TreeDemo.createBranch g d start dir len rad i).1
      ≤ (2 ^ (d + 1) - 1) / (2 - 1) ∧
    countSegs (OrganicTree.createOrganicBranch g tangentAt leafCount d start dir len rad i).1
      ≤ (3 ^ (d + 1) - 1) / (3 - 1) := by
  constructor
  · have h := createBranch_count g d start dir len rad i
    have h2 : (2 : ℕ) ^ d ≤ 2 ^ (d + 1) :=
      Nat.pow_le_pow_right (by norm_num) (Nat.le_succ d)
    simp only [show (2 : ℕ) - 1 = 1 by norm_num, Nat.div_one]
    omega
  · have h := organic_count g tangentAt leafCount d start dir len rad i
    have h2 : (3 : ℕ) ^ d ≤ 3 ^ (d + 1) :=
      Nat.pow_le_pow_right (by norm_num) (Nat.le_succ d)
    rw [show (3 : ℕ) - 1 = 2 by norm_num,
      Nat.le_div_iff_mul_le (by norm_num : 0 < 2)]
    omega

end

end Scenery
